import Mathlib

/-!
Shallow embedding of the donation settlement subsystem of the
Fivopay community backend (Node/Express + Sequelize).

Embedded source files:
  - src/services/razorpayService.js  (verifyPaymentSignature)
  - src/validators/devoteeValidator.js (validateCreateDonation, validateVerifyDonation)
  - src/unnamed/part_006  (donation controller: createDonationOrder, verifyDonation)
  - src/unnamed/part_008  (Donation model: amount is DECIMAL(10,2) in rupees)
  - src/models/Donation.js (Event model: raisedAmountPaise BIGINT, isActive)

Conventions: JS numbers are modelled as ℚ (exact rational arithmetic),
database integer ids as Int, strings as String.  JS `Math.round` is
`jsRound`, JS `Math.floor` is `Int.floor`.  The HMAC-SHA256 primitive of
node's crypto module is an abstract parameter `hmacHex : String → String →
String` (secret, body ↦ hex digest); theorems that need collision-freedom
of the digest take it as an explicit injectivity hypothesis.  Stateful
Sequelize calls become explicit state passing over a `World` record whose
lists model the database tables.
-/

namespace Fivopay

/-- constants/donation.js: DONATION_STATUS = { PENDING, CAPTURED, FAILED }. -/
inductive DonationStatus where
  | pending
  | captured
  | failed
deriving DecidableEq, Repr

/-- Donation row (src/unnamed/part_008): `amount` is DECIMAL(10,2),
commented in the model as 'Amount in Rupees (INR)'. -/
structure DonationRow where
  id : Int
  devoteeId : Int
  adminId : Int
  eventId : Option Int
  amount : ℚ
  razorpayOrderId : String
  razorpayPaymentId : Option String
  razorpaySignature : Option String
  utr : Option String
  transactionId : Option String
  paymentMethod : Option String
  status : DonationStatus
deriving DecidableEq, Repr

/-- Event row (src/models/Donation.js, Event definition):
`raisedAmountPaise` BIGINT non-null default 0, `isActive` boolean. -/
structure EventRow where
  id : Int
  adminId : Int
  title : String
  targetAmountPaise : Option Int
  raisedAmountPaise : Int
  isActive : Bool
deriving DecidableEq, Repr

/-- User (admin / organization) row: the fields the donation controller reads. -/
structure UserRow where
  id : Int
  name : String
  isActive : Bool
deriving DecidableEq, Repr

/-- DevoteeFavorite row: devotee-to-organization link. -/
structure FavoriteRow where
  devoteeId : Int
  adminId : Int
deriving DecidableEq, Repr

/-- Database state: one list per table touched by the donation flows. -/
structure World where
  users : List UserRow
  favorites : List FavoriteRow
  donations : List DonationRow
  events : List EventRow
deriving Repr

/-- JS `Math.round`: round half toward positive infinity. -/
def jsRound (q : ℚ) : Int := ⌊q + 1/2⌋

/-- The env secret is "configured" when it is present and non-empty
(JS truthiness of `process.env.RAZORPAY_KEY_SECRET`). -/
def secretConfigured : Option String → Bool
  | none => false
  | some s => !(s == "")

/-- src/services/razorpayService.js, verifyPaymentSignature:
throws when the secret is unset (falsy), otherwise compares the supplied
signature with the hex HMAC-SHA256 of "orderId|paymentId" under the secret. -/
def verifyPaymentSignature (hmacHex : String → String → String)
    (razorpayKeySecret : Option String)
    (orderId paymentId signature : String) : Except String Bool :=
  match razorpayKeySecret with
  | none => .error "RAZORPAY_KEY_SECRET must be set to verify payments."
  | some secret =>
    if secret == "" then
      .error "RAZORPAY_KEY_SECRET must be set to verify payments."
    else
      .ok (hmacHex secret (orderId ++ "|" ++ paymentId) == signature)

/-- Body of POST /donation/create-order as the validator sees it:
`adminId` after Number(), `amount` after Number().  (The NaN / wrong-type
rejections of the source collapse into the numeric model.) -/
structure CreateDonationBody where
  adminId : Int
  amount : ℚ
deriving Repr

/-- Validated create-order data (src/validators/devoteeValidator.js lines
186-192): adminId and `amountRupees = Math.floor(amountNum * 100) / 100`. -/
structure CreateDonationData where
  adminId : Int
  amountRupees : ℚ
deriving Repr

/-- src/validators/devoteeValidator.js, validateCreateDonation:
adminId must be a positive integer; amount must satisfy 1 ≤ amount ≤ 1000000;
the accepted amount is truncated to two decimals (Math.floor(x*100)/100). -/
def validateCreateDonation (body : CreateDonationBody) :
    Except (List String) CreateDonationData :=
  let errs : List String :=
    (if body.adminId ≤ 0 then ["Valid adminId (organization) is required."] else [])
    ++ (if body.amount < 1 then ["Minimum donation amount is ₹1."]
        else if body.amount > 1000000 then ["Amount exceeds maximum allowed."]
        else [])
  if errs = [] then
    .ok { adminId := body.adminId
          amountRupees := (⌊body.amount * 100⌋ : ℚ) / 100 }
  else
    .error errs

/-- Body of POST /donation/verify.  An empty string models an absent or
falsy field (both fail the source's `!x || typeof x !== 'string'` check). -/
structure VerifyDonationBody where
  razorpay_order_id : String
  razorpay_payment_id : String
  razorpay_signature : String
deriving Repr

/-- Validated verify data. -/
structure VerifyDonationData where
  razorpayOrderId : String
  razorpayPaymentId : String
  razorpaySignature : String
deriving Repr

/-- src/validators/devoteeValidator.js, validateVerifyDonation:
all three fields must be present (truthy) strings. -/
def validateVerifyDonation (body : VerifyDonationBody) :
    Except (List String) VerifyDonationData :=
  let errs : List String :=
    (if body.razorpay_order_id == "" then ["razorpay_order_id is required."] else [])
    ++ (if body.razorpay_payment_id == "" then ["razorpay_payment_id is required."] else [])
    ++ (if body.razorpay_signature == "" then ["razorpay_signature is required."] else [])
  if errs = [] then
    .ok { razorpayOrderId := body.razorpay_order_id
          razorpayPaymentId := body.razorpay_payment_id
          razorpaySignature := body.razorpay_signature }
  else
    .error errs

/-- Outcome of a controller call: `ok` mirrors `success(res, data, message,
statusCode)`, `err` mirrors `error(res, message, statusCode)` (src/unnamed/
part_000), `thrown` is an exception reaching the controller's catch /
`next(err)`. -/
inductive ApiResult (α : Type) where
  | ok (statusCode : Nat) (message : String) (data : α)
  | err (statusCode : Nat) (message : String)
  | thrown
deriving DecidableEq, Repr

/-- `Donation.findOne({ where: { razorpayOrderId, devoteeId } })`
(src/unnamed/part_006 lines 98-104): first row matching BOTH keys. -/
def findDonation (w : World) (razorpayOrderId : String) (devoteeId : Int) :
    Option DonationRow :=
  w.donations.find? (fun d =>
    d.razorpayOrderId == razorpayOrderId && d.devoteeId == devoteeId)

/-- `Event.findByPk(eventId)` (src/unnamed/part_006 line 155): lookup by
primary key only — it does NOT filter on `isActive`. -/
def findEventByPk (w : World) (eventId : Int) : Option EventRow :=
  w.events.find? (fun e => e.id == eventId)

/-- `donation.update({...})`: persist the changed row (identified by its
primary key) back into the donations table. -/
def updateDonationRow (w : World) (id : Int) (d : DonationRow) : World :=
  { w with donations := w.donations.map (fun x => if x.id == id then d else x) }

/-- `ev.update({ raisedAmountPaise: ... })`: persist the changed event row. -/
def updateEventRow (w : World) (id : Int) (e : EventRow) : World :=
  { w with events := w.events.map (fun x => if x.id == id then e else x) }

/-- Autoincremented primary key for `Donation.create`. -/
def nextDonationId (w : World) : Int :=
  (w.donations.map (fun d => d.id)).foldr max 0 + 1

/-- Payload returned by createDonationOrder on success (src/unnamed/part_006
lines 61-70; the event block is dead code there, see `createDonationOrder`). -/
structure OrderPayload where
  donationId : Int
  razorpayOrderId : String
  amount : Int
  amountRupees : ℚ
  currency : String
  organizationId : Int
  organizationName : String
deriving DecidableEq, Repr

/-- src/unnamed/part_006, createDonationOrder.

`gatewayOrderId = some oid` models a successful `createOrder` call on the
Razorpay adapter returning order id `oid` (the adapter echoes the paise
amount and currency "INR"); `none` models the adapter throwing (missing
keys or remote failure), which the controller's catch turns into `next(err)`.

Note: `validation.data` contains only `adminId` and `amountRupees`
(src/validators/devoteeValidator.js lines 186-192), so the destructured
`eventId` on line 20 of the controller is always `undefined`: the event
lookup is skipped and the created donation's eventId is null. -/
def createDonationOrder (gatewayOrderId : Option String)
    (w : World) (devoteeId : Int) (body : CreateDonationBody) :
    ApiResult OrderPayload × World :=
  match validateCreateDonation body with
  | .error _ => (.err 422 "Validation failed", w)
  | .ok data =>
    let amountPaise : Int := jsRound (data.amountRupees * 100)
    if amountPaise < 100 then
      (.err 422 "Minimum donation is ₹1.", w)
    else
      match w.favorites.find? (fun f =>
          f.devoteeId == devoteeId && f.adminId == data.adminId) with
      | none =>
        (.err 400 "Organization must be one of your 5 favorites. Add it first.", w)
      | some _ =>
        match w.users.find? (fun u => u.id == data.adminId) with
        | none => (.err 400 "Organization not found or inactive.", w)
        | some admin =>
          if !admin.isActive then
            (.err 400 "Organization not found or inactive.", w)
          else
            match gatewayOrderId with
            | none => (.thrown, w)
            | some orderId =>
              let donation : DonationRow :=
                { id := nextDonationId w
                  devoteeId := devoteeId
                  adminId := data.adminId
                  eventId := none
                  amount := data.amountRupees
                  razorpayOrderId := orderId
                  razorpayPaymentId := none
                  razorpaySignature := none
                  utr := none
                  transactionId := none
                  paymentMethod := none
                  status := .pending }
              let w1 : World := { w with donations := w.donations ++ [donation] }
              (.ok 201 "Order created. Complete payment on client."
                { donationId := donation.id
                  razorpayOrderId := orderId
                  amount := amountPaise
                  amountRupees := (amountPaise : ℚ) / 100
                  currency := "INR"
                  organizationId := data.adminId
                  organizationName := admin.name }, w1)

/-- `acquirer_data` of a fetched Razorpay payment. -/
structure AcquirerData where
  rrn : Option String
  upi_transaction_id : Option String
  bank_transaction_id : Option String
deriving Repr

/-- Payment details returned by `fetchPayment` on the Razorpay adapter. -/
structure PaymentDetails where
  method : Option String
  acquirer_data : Option AcquirerData
deriving Repr

/-- Enrichment block of verifyDonation (src/unnamed/part_006 lines 121-143):
`fetch pid = none` models `fetchPayment` throwing — the catch swallows the
error and proceeds with nulls (the transactionId fallback is inside the try,
so it is skipped too).  On success the UTR is `rrn || upi_transaction_id`,
the transaction id is `bank_transaction_id` with fallback to the payment id. -/
def paymentEnrichment (fetch : String → Option PaymentDetails)
    (razorpayPaymentId : String) :
    Option String × Option String × Option String :=
  match fetch razorpayPaymentId with
  | none => (none, none, none)
  | some pd =>
    let utr := pd.acquirer_data.bind (fun a =>
      match a.rrn with
      | some r => some r
      | none => a.upi_transaction_id)
    let tid := pd.acquirer_data.bind (fun a => a.bank_transaction_id)
    let tid := match tid with
      | none => some razorpayPaymentId
      | some t => some t
    (utr, tid, pd.method)

/-- src/unnamed/part_006, verifyDonation (lines 89-173).

Returns the response and the new database state.  The response carries the
donation row; the source serializes it through `donationToResponse`, a pure
projection of the row, so row equality determines response equality.

Order of effects, exactly as in the source: validate body → look up the
donation by (razorpayOrderId, devoteeId) → early return on captured /
failed → verify the signature (a throw from the adapter, secret unset,
reaches the catch) → on invalid signature mark the donation failed → on
valid signature fetch enrichment (best effort), update the donation to
captured, then read-and-write the target event's raisedAmountPaise
(`findByPk`, no isActive filter; skipped silently when the event is gone). -/
def verifyDonation (hmacHex : String → String → String)
    (razorpayKeySecret : Option String)
    (fetch : String → Option PaymentDetails)
    (w : World) (devoteeId : Int) (body : VerifyDonationBody) :
    ApiResult DonationRow × World :=
  match validateVerifyDonation body with
  | .error _ => (.err 422 "Validation failed", w)
  | .ok data =>
    match findDonation w data.razorpayOrderId devoteeId with
    | none => (.err 404 "Donation not found.", w)
    | some donation =>
      if donation.status = .captured then
        (.ok 200 "Payment already verified." donation, w)
      else if donation.status = .failed then
        (.err 400 "Payment failed. Please try again.", w)
      else
        match verifyPaymentSignature hmacHex razorpayKeySecret
            data.razorpayOrderId data.razorpayPaymentId data.razorpaySignature with
        | .error _ => (.thrown, w)
        | .ok false =>
          (.err 400 "Payment verification failed. Invalid signature.",
           updateDonationRow w donation.id { donation with status := .failed })
        | .ok true =>
          let enr := paymentEnrichment fetch data.razorpayPaymentId
          let captured : DonationRow :=
            { donation with
              razorpayPaymentId := some data.razorpayPaymentId
              razorpaySignature := some data.razorpaySignature
              utr := enr.1
              transactionId := enr.2.1
              paymentMethod := enr.2.2
              status := .captured }
          let w1 := updateDonationRow w donation.id captured
          let w2 :=
            match donation.eventId with
            | none => w1
            | some eventId =>
              match findEventByPk w1 eventId with
              | none => w1
              | some ev =>
                let currentRaised := ev.raisedAmountPaise
                let donationAmountPaise := jsRound (donation.amount * 100)
                updateEventRow w1 eventId
                  { ev with raisedAmountPaise := currentRaised + donationAmountPaise }
          (.ok 200 "Payment verified. Thank you for your donation!" captured, w2)

/-- The raised amount (paise) currently recorded for an event. -/
def eventRaised (w : World) (eventId : Int) : Option Int :=
  (findEventByPk w eventId).map (fun e => e.raisedAmountPaise)

/-- The status currently recorded for a donation id. -/
def donationStatusById (w : World) (id : Int) : Option DonationStatus :=
  (w.donations.find? (fun d => d.id == id)).map (fun d => d.status)

/-- The donation row written by the `donation.update({...})` on the
valid-signature path of verifyDonation (src/unnamed/part_006 lines 145-152). -/
def captureSuccess (fetch : String → Option PaymentDetails)
    (d : DonationRow) (pid sig : String) : DonationRow :=
  let enr := paymentEnrichment fetch pid
  { d with
    razorpayPaymentId := some pid
    razorpaySignature := some sig
    utr := enr.1
    transactionId := enr.2.1
    paymentMethod := enr.2.2
    status := .captured }

/-- The database state after the valid-signature path of verifyDonation:
the donation row is updated to captured, then the event's raisedAmountPaise
is read and re-written (skipped when the row's eventId is null or the event
row is gone). -/
def captureWorld (fetch : String → Option PaymentDetails)
    (w : World) (d : DonationRow) (pid sig : String) : World :=
  let w1 := updateDonationRow w d.id (captureSuccess fetch d pid sig)
  match d.eventId with
  | none => w1
  | some eventId =>
    match findEventByPk w1 eventId with
    | none => w1
    | some ev =>
      updateEventRow w1 eventId
        { ev with raisedAmountPaise := ev.raisedAmountPaise + jsRound (d.amount * 100) }

/-- One caller-facing operation of the donation subsystem, with its request
data and its environment (gateway outcome, secret, digest, enrichment). -/
inductive Op where
  | createOrder (gatewayOrderId : Option String) (devoteeId : Int)
      (body : CreateDonationBody)
  | verify (hmacHex : String → String → String)
      (razorpayKeySecret : Option String)
      (fetch : String → Option PaymentDetails)
      (devoteeId : Int) (body : VerifyDonationBody)

/-- State effect of one operation. -/
def applyOp (w : World) : Op → World
  | .createOrder gw dev b => (createDonationOrder gw w dev b).2
  | .verify h s f dev b => (verifyDonation h s f w dev b).2

/-- State after a sequence of operations. -/
def runOps (w : World) (ops : List Op) : World := ops.foldl applyOp w

/-- Primary-key uniqueness of the donations table (DB invariant). -/
def donationIdsNodup (w : World) : Prop :=
  (w.donations.map (fun d => d.id)).Nodup

/-!  Two-phase model of the raised-amount update (src/unnamed/part_006
lines 154-161).  The source reads `ev.raisedAmountPaise` and then writes
`currentRaised + donationAmountPaise` as two separate database operations
with no lock or atomic increment; `aggAddRaised` is one capture's
read-then-write executed without interruption, `interleavedAddRaised2` is
the schedule in which two captures both read before either writes.  -/

/-- Write phase: `ev.update({ raisedAmountPaise: v })`. -/
def aggWriteRaised (w : World) (eventId : Int) (v : Int) : World :=
  match findEventByPk w eventId with
  | none => w
  | some ev => updateEventRow w eventId { ev with raisedAmountPaise := v }

/-- One serialized capture-side update: read, then immediately write. -/
def aggAddRaised (w : World) (eventId : Int) (amountPaise : Int) : World :=
  match eventRaised w eventId with
  | none => w
  | some r => aggWriteRaised w eventId (r + amountPaise)

/-- n serialized capture-side updates of the same amount. -/
def seqAddRaised (w : World) (eventId : Int) (amountPaise : Int) : Nat → World
  | 0 => w
  | n + 1 => seqAddRaised (aggAddRaised w eventId amountPaise) eventId amountPaise n

/-- The lost-update schedule: captures 0 and 1 both execute their read
phase against the same state, then both write. -/
def interleavedAddRaised2 (w : World) (eventId : Int) (amountPaise : Int) : World :=
  match eventRaised w eventId, eventRaised w eventId with
  | some r0, some r1 =>
    aggWriteRaised (aggWriteRaised w eventId (r0 + amountPaise)) eventId
      (r1 + amountPaise)
  | _, _ => w

/-!  Concrete data used to instantiate theorems. -/

/-- Degenerate hex digest (identity in the body) used only to instantiate
the abstract `hmacHex` parameter in concrete evaluations. -/
def hmacId : String → String → String := fun _ b => b

/-- Enrichment fetch that throws (the controller swallows the error). -/
def fetchNone : String → Option PaymentDetails := fun _ => none

def exAdmin : UserRow := { id := 1, name := "Temple", isActive := true }

def exFav : FavoriteRow := { devoteeId := 10, adminId := 1 }

def exEventActive : EventRow :=
  { id := 3, adminId := 1, title := "Festival"
    targetAmountPaise := some 1000000, raisedAmountPaise := 0, isActive := true }

def exEventInactive : EventRow :=
  { id := 3, adminId := 1, title := "Festival"
    targetAmountPaise := some 1000000, raisedAmountPaise := 0, isActive := false }

/-- A pending donation of ₹5 toward event 3, order id "ord1". -/
def exDonPending : DonationRow :=
  { id := 100, devoteeId := 10, adminId := 1, eventId := some 3, amount := 5
    razorpayOrderId := "ord1", razorpayPaymentId := none, razorpaySignature := none
    utr := none, transactionId := none, paymentMethod := none, status := .pending }

/-- An already-captured donation, order id "ord2". -/
def exDonCaptured : DonationRow :=
  { id := 101, devoteeId := 10, adminId := 1, eventId := some 3, amount := 7
    razorpayOrderId := "ord2", razorpayPaymentId := some "payA"
    razorpaySignature := some "sigA", utr := none, transactionId := none
    paymentMethod := none, status := .captured }

def exWorldCaptured : World :=
  { users := [exAdmin], favorites := [exFav]
    donations := [exDonCaptured], events := [exEventActive] }

def exWorldPending : World :=
  { users := [exAdmin], favorites := [exFav]
    donations := [exDonPending], events := [exEventActive] }

def exWorldInactive : World :=
  { users := [exAdmin], favorites := [exFav]
    donations := [exDonPending], events := [exEventInactive] }

def exWorldNoDonations : World :=
  { users := [exAdmin], favorites := [exFav], donations := [], events := [] }

/-!  ## Helper lemmas  -/

theorem find?_map_pres {α : Type} (f : α → α) (p : α → Bool) (l : List α)
    (hp : ∀ x ∈ l, p (f x) = p x) :
    (l.map f).find? p = (l.find? p).map f := by
  induction l with
  | nil => rfl
  | cons h t ih =>
    have hh := hp h (List.mem_cons_self h t)
    by_cases hph : p h = true
    · simp [List.find?, hph, hh]
    · have hph' : p h = false := by
        cases hq : p h with
        | true => exact absurd hq hph
        | false => rfl
      simp only [List.map_cons, List.find?, hph', hh]
      exact ih (fun x hx => hp x (List.mem_cons_of_mem h hx))

theorem le_foldr_max (l : List Int) (x : Int) (hx : x ∈ l) :
    x ≤ l.foldr max 0 := by
  induction l with
  | nil => cases hx
  | cons h t ih =>
    rcases List.mem_cons.mp hx with rfl | hmem
    · exact le_max_left _ _
    · exact le_trans (ih hmem) (le_max_right _ _)

theorem find?_key_first {α : Type} (key : α → Int) (l : List α)
    (hn : (l.map key).Nodup) (d : α) (hd : d ∈ l) :
    l.find? (fun x => key x == key d) = some d := by
  induction l with
  | nil => cases hd
  | cons h t ih =>
    simp only [List.map_cons, List.nodup_cons] at hn
    rcases List.mem_cons.mp hd with rfl | hmem
    · simp [List.find?]
    · have hne : key h ≠ key d := by
        intro he
        exact hn.1 (he ▸ List.mem_map_of_mem key hmem)
      have : (key h == key d) = false := beq_eq_false_iff_ne.mpr hne
      simp only [List.find?, this]
      exact ih hn.2 hmem

theorem validateVerifyDonation_ok (body : VerifyDonationBody)
    (h1 : body.razorpay_order_id ≠ "") (h2 : body.razorpay_payment_id ≠ "")
    (h3 : body.razorpay_signature ≠ "") :
    validateVerifyDonation body =
      .ok { razorpayOrderId := body.razorpay_order_id
            razorpayPaymentId := body.razorpay_payment_id
            razorpaySignature := body.razorpay_signature } := by
  simp [validateVerifyDonation, h1, h2, h3]

theorem validateCreateDonation_ok (body : CreateDonationBody)
    (hid : 0 < body.adminId) (hlo : 1 ≤ body.amount) (hhi : body.amount ≤ 1000000) :
    validateCreateDonation body =
      .ok { adminId := body.adminId
            amountRupees := (⌊body.amount * 100⌋ : ℚ) / 100 } := by
  have h1 : ¬ body.adminId ≤ 0 := not_le.mpr hid
  have h2 : ¬ body.amount < 1 := not_lt.mpr hlo
  have h3 : ¬ body.amount > 1000000 := not_lt.mpr hhi
  simp [validateCreateDonation, h1, h2, h3]

theorem jsRound_intCast (z : Int) : jsRound (z : ℚ) = z := by
  unfold jsRound
  rw [Int.floor_eq_iff]
  constructor
  · linarith
  · norm_num

theorem jsRound_floor_div (a : ℚ) :
    jsRound ((⌊a * 100⌋ : ℚ) / 100 * 100) = ⌊a * 100⌋ := by
  have h : ((⌊a * 100⌋ : ℚ) / 100 * 100) = ((⌊a * 100⌋ : Int) : ℚ) := by
    field_simp
  rw [h, jsRound_intCast]

theorem pipe_body_inj_left (oid oid' pid : String)
    (h : oid' ++ "|" ++ pid = oid ++ "|" ++ pid) : oid' = oid := by
  have hd := congrArg String.data h
  simp only [String.data_append] at hd
  exact String.ext (List.append_cancel_right (List.append_cancel_right hd))

theorem pipe_body_inj_right (oid pid pid' : String)
    (h : oid ++ "|" ++ pid' = oid ++ "|" ++ pid) : pid' = pid := by
  have hd := congrArg String.data h
  simp only [String.data_append] at hd
  rw [List.append_assoc, List.append_assoc] at hd
  exact String.ext (List.append_cancel_left (List.append_cancel_left hd))

/-!  ## Branch characterizations of verifyDonation  -/

theorem verify_branch_captured (hmacHex : String → String → String)
    (secret : Option String) (fetch : String → Option PaymentDetails)
    (w : World) (dev : Int) (body : VerifyDonationBody) (d : DonationRow)
    (h1 : body.razorpay_order_id ≠ "") (h2 : body.razorpay_payment_id ≠ "")
    (h3 : body.razorpay_signature ≠ "")
    (hfind : findDonation w body.razorpay_order_id dev = some d)
    (hcap : d.status = .captured) :
    verifyDonation hmacHex secret fetch w dev body =
      (.ok 200 "Payment already verified." d, w) := by
  unfold verifyDonation
  rw [validateVerifyDonation_ok body h1 h2 h3]
  simp [hfind, hcap]

theorem verify_branch_failed (hmacHex : String → String → String)
    (secret : Option String) (fetch : String → Option PaymentDetails)
    (w : World) (dev : Int) (body : VerifyDonationBody) (d : DonationRow)
    (h1 : body.razorpay_order_id ≠ "") (h2 : body.razorpay_payment_id ≠ "")
    (h3 : body.razorpay_signature ≠ "")
    (hfind : findDonation w body.razorpay_order_id dev = some d)
    (hfail : d.status = .failed) :
    verifyDonation hmacHex secret fetch w dev body =
      (.err 400 "Payment failed. Please try again.", w) := by
  unfold verifyDonation
  rw [validateVerifyDonation_ok body h1 h2 h3]
  simp [hfind, hfail]

theorem verify_branch_bad_signature (hmacHex : String → String → String)
    (secret : String) (fetch : String → Option PaymentDetails)
    (w : World) (dev : Int) (body : VerifyDonationBody) (d : DonationRow)
    (hsk : secret ≠ "")
    (h1 : body.razorpay_order_id ≠ "") (h2 : body.razorpay_payment_id ≠ "")
    (h3 : body.razorpay_signature ≠ "")
    (hfind : findDonation w body.razorpay_order_id dev = some d)
    (hpend : d.status = .pending)
    (hbad : hmacHex secret (body.razorpay_order_id ++ "|" ++ body.razorpay_payment_id)
      ≠ body.razorpay_signature) :
    verifyDonation hmacHex (some secret) fetch w dev body =
      (.err 400 "Payment verification failed. Invalid signature.",
       updateDonationRow w d.id { d with status := .failed }) := by
  have hb : (hmacHex secret (body.razorpay_order_id ++ "|" ++ body.razorpay_payment_id)
      == body.razorpay_signature) = false := beq_eq_false_iff_ne.mpr hbad
  unfold verifyDonation
  rw [validateVerifyDonation_ok body h1 h2 h3]
  simp [hfind, hpend, verifyPaymentSignature, hsk, hb]

theorem verify_branch_good_signature (hmacHex : String → String → String)
    (secret : String) (fetch : String → Option PaymentDetails)
    (w : World) (dev : Int) (body : VerifyDonationBody) (d : DonationRow)
    (hsk : secret ≠ "")
    (h1 : body.razorpay_order_id ≠ "") (h2 : body.razorpay_payment_id ≠ "")
    (h3 : body.razorpay_signature ≠ "")
    (hfind : findDonation w body.razorpay_order_id dev = some d)
    (hpend : d.status = .pending)
    (hgood : hmacHex secret (body.razorpay_order_id ++ "|" ++ body.razorpay_payment_id)
      = body.razorpay_signature) :
    verifyDonation hmacHex (some secret) fetch w dev body =
      (.ok 200 "Payment verified. Thank you for your donation!"
         (captureSuccess fetch d body.razorpay_payment_id body.razorpay_signature),
       captureWorld fetch w d body.razorpay_payment_id body.razorpay_signature) := by
  have hb : (hmacHex secret (body.razorpay_order_id ++ "|" ++ body.razorpay_payment_id)
      == body.razorpay_signature) = true := beq_iff_eq.mpr hgood
  unfold verifyDonation
  rw [validateVerifyDonation_ok body h1 h2 h3]
  simp [hfind, hpend, verifyPaymentSignature, hsk, hb,
    captureSuccess, captureWorld]

/-!  ## Structural lemmas about lookups and updates  -/

theorem updateDonationRow_events (w : World) (i : Int) (d : DonationRow) :
    (updateDonationRow w i d).events = w.events := rfl

theorem updateEventRow_donations (w : World) (i : Int) (e : EventRow) :
    (updateEventRow w i e).donations = w.donations := rfl

theorem findEventByPk_updateDonationRow (w : World) (i : Int) (d : DonationRow)
    (eid : Int) : findEventByPk (updateDonationRow w i d) eid = findEventByPk w eid := rfl

theorem findDonation_matches (w : World) (oid : String) (dev : Int)
    (d : DonationRow) (h : findDonation w oid dev = some d) :
    d.razorpayOrderId = oid ∧ d.devoteeId = dev := by
  have hp := List.find?_some h
  simp only [Bool.and_eq_true, beq_iff_eq] at hp
  exact hp

theorem findDonation_mem (w : World) (oid : String) (dev : Int)
    (d : DonationRow) (h : findDonation w oid dev = some d) : d ∈ w.donations :=
  List.mem_of_find?_eq_some h

theorem findDonation_none (w : World) (oid : String) (dev : Int)
    (h : ∀ d ∈ w.donations, d.razorpayOrderId = oid → d.devoteeId ≠ dev) :
    findDonation w oid dev = none := by
  apply List.find?_eq_none.mpr
  intro x hx hpx
  simp only [Bool.and_eq_true, beq_iff_eq] at hpx
  exact h x hx hpx.1 hpx.2

theorem findDonation_update_found (w : World) (oid : String) (dev : Int)
    (d : DonationRow) (hnd : donationIdsNodup w)
    (hfind : findDonation w oid dev = some d) (dnew : DonationRow)
    (ho : dnew.razorpayOrderId = d.razorpayOrderId)
    (hv : dnew.devoteeId = d.devoteeId) :
    findDonation (updateDonationRow w d.id dnew) oid dev = some dnew := by
  have hmem : d ∈ w.donations := findDonation_mem w oid dev d hfind
  unfold findDonation updateDonationRow at *
  rw [find?_map_pres]
  · rw [hfind]
    simp
  · intro x hx
    by_cases hxid : (x.id == d.id) = true
    · have hxd : x = d :=
        List.inj_on_of_nodup_map hnd hx hmem (beq_iff_eq.mp hxid)
      simp [hxid, ho, hv, hxd]
    · simp only [Bool.not_eq_true] at hxid
      simp [hxid]

theorem donationStatusById_update_self (w : World) (d : DonationRow)
    (hmem : d ∈ w.donations) (dnew : DonationRow) (hid : dnew.id = d.id) :
    donationStatusById (updateDonationRow w d.id dnew) d.id = some dnew.status := by
  unfold donationStatusById updateDonationRow
  rw [find?_map_pres]
  · cases hfx : w.donations.find? (fun x => x.id == d.id) with
    | none =>
      exact absurd (by simp : (d.id == d.id) = true)
        (List.find?_eq_none.mp hfx d hmem)
    | some x0 =>
      have hx0 := List.find?_some hfx
      have hx0eq : x0.id = d.id := beq_iff_eq.mp hx0
      simp [hfx, hx0eq]
  · intro x _
    by_cases hxid : (x.id == d.id) = true
    · simp [hxid, hid]
    · simp only [Bool.not_eq_true] at hxid
      simp [hxid]

theorem donationStatusById_update_other (w : World) (d : DonationRow)
    (dnew : DonationRow) (hid : dnew.id = d.id) (i : Int) (hne : i ≠ d.id) :
    donationStatusById (updateDonationRow w d.id dnew) i = donationStatusById w i := by
  unfold donationStatusById updateDonationRow
  rw [find?_map_pres]
  · cases hfx : w.donations.find? (fun x => x.id == i) with
    | none => simp [hfx]
    | some x0 =>
      have hx0' := List.find?_some hfx
      have hx0 : x0.id = i := beq_iff_eq.mp hx0'
      have hxid : (x0.id == d.id) = false :=
        beq_eq_false_iff_ne.mpr (by rw [hx0]; exact hne)
      simp [hfx, beq_eq_false_iff_ne.mp hxid]
  · intro x _
    by_cases hxid : (x.id == d.id) = true
    · have hx : x.id = d.id := beq_iff_eq.mp hxid
      have h1 : (dnew.id == i) = false :=
        beq_eq_false_iff_ne.mpr (by rw [hid]; exact fun he => hne he.symm)
      have h2 : (x.id == i) = false :=
        beq_eq_false_iff_ne.mpr (by rw [hx]; exact fun he => hne he.symm)
      simp [hxid, h1, h2]
    · simp only [Bool.not_eq_true] at hxid
      simp [hxid]

theorem findEventByPk_id (w : World) (eid : Int) (ev : EventRow)
    (h : findEventByPk w eid = some ev) : ev.id = eid := by
  unfold findEventByPk at h
  have h2 := List.find?_some h
  exact beq_iff_eq.mp h2

theorem findEventByPk_updateEventRow_self (w : World) (eid : Int)
    (ev : EventRow) (hfind : findEventByPk w eid = some ev)
    (enew : EventRow) (hid : enew.id = ev.id) :
    findEventByPk (updateEventRow w eid enew) eid = some enew := by
  have hevid : ev.id = eid := findEventByPk_id w eid ev hfind
  unfold findEventByPk updateEventRow at *
  rw [find?_map_pres]
  · rw [hfind]
    simp [hevid]
  · intro x _
    by_cases hxid : (x.id == eid) = true
    · simp [hxid, hid, hevid]
    · simp only [Bool.not_eq_true] at hxid
      simp [hxid]

theorem captureWorld_donations (fetch : String → Option PaymentDetails)
    (w : World) (d : DonationRow) (pid sig : String) :
    (captureWorld fetch w d pid sig).donations =
      (updateDonationRow w d.id (captureSuccess fetch d pid sig)).donations := by
  unfold captureWorld
  cases hd : d.eventId with
  | none => rfl
  | some eid =>
    cases hf : findEventByPk
        (updateDonationRow w d.id (captureSuccess fetch d pid sig)) eid with
    | none => simp [hf]
    | some ev => simp [hf, updateEventRow]

theorem captureWorld_events_no_event (fetch : String → Option PaymentDetails)
    (w : World) (d : DonationRow) (pid sig : String) (hd : d.eventId = none) :
    (captureWorld fetch w d pid sig).events = w.events := by
  unfold captureWorld
  simp only [hd]
  rfl

theorem captureWorld_events_missing_event (fetch : String → Option PaymentDetails)
    (w : World) (d : DonationRow) (pid sig : String) (eid : Int)
    (hd : d.eventId = some eid) (hmiss : findEventByPk w eid = none) :
    (captureWorld fetch w d pid sig).events = w.events := by
  have hmiss1 : findEventByPk
      (updateDonationRow w d.id (captureSuccess fetch d pid sig)) eid = none := hmiss
  unfold captureWorld
  simp only [hd, hmiss1]
  rfl

theorem eventRaised_captureWorld (fetch : String → Option PaymentDetails)
    (w : World) (d : DonationRow) (pid sig : String) (eid : Int) (ev : EventRow)
    (hd : d.eventId = some eid) (hfind : findEventByPk w eid = some ev) :
    eventRaised (captureWorld fetch w d pid sig) eid =
      some (ev.raisedAmountPaise + jsRound (d.amount * 100)) := by
  have hfind1 : findEventByPk
      (updateDonationRow w d.id (captureSuccess fetch d pid sig)) eid = some ev := hfind
  unfold captureWorld
  simp only [hd, hfind1]
  unfold eventRaised
  rw [findEventByPk_updateEventRow_self _ _ ev hfind1
      { ev with raisedAmountPaise := ev.raisedAmountPaise + jsRound (d.amount * 100) } rfl]
  rfl

/-!  ## Aggregator lemmas  -/

theorem eventRaised_aggAddRaised (w : World) (eid : Int) (a r : Int)
    (hr : eventRaised w eid = some r) :
    eventRaised (aggAddRaised w eid a) eid = some (r + a) := by
  have hr' := hr
  unfold eventRaised at hr'
  cases hf : findEventByPk w eid with
  | none => rw [hf] at hr'; cases hr'
  | some ev =>
    rw [hf] at hr'
    have hre : ev.raisedAmountPaise = r := by simpa using hr'
    unfold aggAddRaised
    rw [hr]
    unfold aggWriteRaised
    rw [hf]
    unfold eventRaised
    rw [findEventByPk_updateEventRow_self _ _ ev hf
        { ev with raisedAmountPaise := r + a } rfl]
    rfl

theorem eventRaised_seqAddRaised (eid a : Int) (n : Nat) :
    ∀ (w : World) (r : Int), eventRaised w eid = some r →
      eventRaised (seqAddRaised w eid a n) eid = some (r + n * a) := by
  induction n with
  | zero =>
    intro w r hr
    simpa [seqAddRaised] using hr
  | succ n ih =>
    intro w r hr
    unfold seqAddRaised
    have h1 := eventRaised_aggAddRaised w eid a r hr
    have h2 := ih (aggAddRaised w eid a) (r + a) h1
    rw [h2]
    congr 1
    push_cast
    ring

/-!  ## Claims  -/

/-- C1: Idempotent capture — when the donation looked up by
(gatewayOrderId, devoteeId) is already `captured`, calling verify-payment
again returns success (HTTP 200, "Payment already verified.") carrying the
existing donation row, and leaves the entire database state — the donation
and every event's raisedAmountPaise — unchanged, so the event total is
credited only once per successful capture. -/
theorem C1_idempotent_capture (hmacHex : String → String → String)
    (secret : Option String) (fetch : String → Option PaymentDetails)
    (w : World) (dev : Int) (body : VerifyDonationBody) (d : DonationRow)
    (h1 : body.razorpay_order_id ≠ "") (h2 : body.razorpay_payment_id ≠ "")
    (h3 : body.razorpay_signature ≠ "")
    (hfind : findDonation w body.razorpay_order_id dev = some d)
    (hcap : d.status = .captured) :
    verifyDonation hmacHex secret fetch w dev body =
      (.ok 200 "Payment already verified." d, w)
    ∧ ∀ eid, eventRaised (verifyDonation hmacHex secret fetch w dev body).2 eid
        = eventRaised w eid := by
  have h := verify_branch_captured hmacHex secret fetch w dev body d h1 h2 h3 hfind hcap
  exact ⟨h, fun eid => by rw [h]⟩

/-- C1 witness: replaying verification of the captured donation "ord2"
returns the stored row and leaves the world untouched. -/
theorem C1_idempotent_capture_witness :
    verifyDonation hmacId (some "sec") fetchNone exWorldCaptured 10
        { razorpay_order_id := "ord2", razorpay_payment_id := "p2"
          razorpay_signature := "s2" }
      = (.ok 200 "Payment already verified." exDonCaptured, exWorldCaptured) :=
  (C1_idempotent_capture hmacId (some "sec") fetchNone exWorldCaptured 10
    { razorpay_order_id := "ord2", razorpay_payment_id := "p2"
      razorpay_signature := "s2" }
    exDonCaptured (by decide) (by decide) (by decide) rfl rfl).1

/-- C10: replay ignores supplied credentials — when the looked-up donation
is already `captured`, the result is success with the stored row for ANY
supplied payment id and signature (valid or not), and two such calls
differing only in those credentials return identical results and identical
final states (the signature is never re-checked on this path). -/
theorem C10_replay_ignores_credentials (hmacHex : String → String → String)
    (secret : Option String) (fetch : String → Option PaymentDetails)
    (w : World) (dev : Int) (oid pid1 sig1 pid2 sig2 : String) (d : DonationRow)
    (ho : oid ≠ "") (hp1 : pid1 ≠ "") (hs1 : sig1 ≠ "")
    (hp2 : pid2 ≠ "") (hs2 : sig2 ≠ "")
    (hfind : findDonation w oid dev = some d) (hcap : d.status = .captured) :
    verifyDonation hmacHex secret fetch w dev
        { razorpay_order_id := oid, razorpay_payment_id := pid1
          razorpay_signature := sig1 }
      = (.ok 200 "Payment already verified." d, w)
    ∧ verifyDonation hmacHex secret fetch w dev
        { razorpay_order_id := oid, razorpay_payment_id := pid1
          razorpay_signature := sig1 }
      = verifyDonation hmacHex secret fetch w dev
        { razorpay_order_id := oid, razorpay_payment_id := pid2
          razorpay_signature := sig2 } := by
  have hA := verify_branch_captured hmacHex secret fetch w dev
    { razorpay_order_id := oid, razorpay_payment_id := pid1
      razorpay_signature := sig1 } d ho hp1 hs1 hfind hcap
  have hB := verify_branch_captured hmacHex secret fetch w dev
    { razorpay_order_id := oid, razorpay_payment_id := pid2
      razorpay_signature := sig2 } d ho hp2 hs2 hfind hcap
  exact ⟨hA, hA.trans hB.symm⟩

/-- C10 witness: a garbage credential pair and a different credential pair
both replay the captured donation "ord2" with identical outcomes. -/
theorem C10_replay_ignores_credentials_witness :
    verifyDonation hmacId (some "sec") fetchNone exWorldCaptured 10
        { razorpay_order_id := "ord2", razorpay_payment_id := "payA"
          razorpay_signature := "sigA" }
      = verifyDonation hmacId (some "sec") fetchNone exWorldCaptured 10
        { razorpay_order_id := "ord2", razorpay_payment_id := "junk"
          razorpay_signature := "invalid" } :=
  (C10_replay_ignores_credentials hmacId (some "sec") fetchNone exWorldCaptured 10
    "ord2" "payA" "sigA" "junk" "invalid" exDonCaptured
    (by decide) (by decide) (by decide) (by decide) (by decide) rfl rfl).2

/-- C7: cross-devotee isolation — the verify lookup matches on BOTH the
gateway order id and the caller's devotee id; when every donation carrying
the supplied order id belongs to a different devotee, the call returns 404
"Donation not found." and changes no state. -/
theorem C7_cross_devotee_isolation :
    (∀ (w : World) (oid : String) (dev : Int) (d : DonationRow),
        findDonation w oid dev = some d →
        d.razorpayOrderId = oid ∧ d.devoteeId = dev)
    ∧ (∀ (hmacHex : String → String → String) (secret : Option String)
        (fetch : String → Option PaymentDetails)
        (w : World) (dev : Int) (body : VerifyDonationBody),
        body.razorpay_order_id ≠ "" → body.razorpay_payment_id ≠ "" →
        body.razorpay_signature ≠ "" →
        (∀ d ∈ w.donations,
          d.razorpayOrderId = body.razorpay_order_id → d.devoteeId ≠ dev) →
        verifyDonation hmacHex secret fetch w dev body
          = (.err 404 "Donation not found.", w)) := by
  constructor
  · exact findDonation_matches
  · intro hmacHex secret fetch w dev body h1 h2 h3 hno
    have hnone := findDonation_none w body.razorpay_order_id dev hno
    unfold verifyDonation
    rw [validateVerifyDonation_ok body h1 h2 h3]
    simp [hnone]

/-- C7 witness: devotee 99 tries to verify devotee 10's order "ord2" —
404 and no state change. -/
theorem C7_cross_devotee_isolation_witness :
    verifyDonation hmacId (some "sec") fetchNone exWorldCaptured 99
        { razorpay_order_id := "ord2", razorpay_payment_id := "payA"
          razorpay_signature := "sigA" }
      = (.err 404 "Donation not found.", exWorldCaptured) :=
  C7_cross_devotee_isolation.2 hmacId (some "sec") fetchNone exWorldCaptured 99
    { razorpay_order_id := "ord2", razorpay_payment_id := "payA"
      razorpay_signature := "sigA" }
    (by decide) (by decide) (by decide) (by decide)

/-- C6: tampered-signature flow — on a pending donation, a signature that
fails verification marks the donation `failed`, leaves every event row
(hence every raisedAmountPaise) unchanged, returns the signature-mismatch
error (HTTP 400), and every later verify attempt on the same order returns
the "Payment failed. Please try again." error without further state change. -/
theorem C6_tampered_signature (hmacHex : String → String → String)
    (secret : String) (fetch : String → Option PaymentDetails)
    (w : World) (dev : Int) (body : VerifyDonationBody) (d : DonationRow)
    (hsk : secret ≠ "") (hnd : donationIdsNodup w)
    (h1 : body.razorpay_order_id ≠ "") (h2 : body.razorpay_payment_id ≠ "")
    (h3 : body.razorpay_signature ≠ "")
    (hfind : findDonation w body.razorpay_order_id dev = some d)
    (hpend : d.status = .pending)
    (hbad : hmacHex secret (body.razorpay_order_id ++ "|" ++ body.razorpay_payment_id)
      ≠ body.razorpay_signature) :
    verifyDonation hmacHex (some secret) fetch w dev body
      = (.err 400 "Payment verification failed. Invalid signature.",
         updateDonationRow w d.id { d with status := .failed })
    ∧ donationStatusById (updateDonationRow w d.id { d with status := .failed }) d.id
      = some .failed
    ∧ (updateDonationRow w d.id { d with status := .failed }).events = w.events
    ∧ ∀ pid2 sig2 : String, pid2 ≠ "" → sig2 ≠ "" →
        verifyDonation hmacHex (some secret) fetch
            (updateDonationRow w d.id { d with status := .failed }) dev
            { razorpay_order_id := body.razorpay_order_id
              razorpay_payment_id := pid2, razorpay_signature := sig2 }
          = (.err 400 "Payment failed. Please try again.",
             updateDonationRow w d.id { d with status := .failed }) := by
  refine ⟨verify_branch_bad_signature hmacHex secret fetch w dev body d
    hsk h1 h2 h3 hfind hpend hbad, ?_, rfl, ?_⟩
  · exact donationStatusById_update_self w d
      (findDonation_mem _ _ _ _ hfind) { d with status := .failed } rfl
  · intro pid2 sig2 hp2 hs2
    have hfind2 := findDonation_update_found w body.razorpay_order_id dev d hnd
      hfind { d with status := .failed } rfl rfl
    exact verify_branch_failed hmacHex (some secret) fetch
      (updateDonationRow w d.id { d with status := .failed }) dev
      { razorpay_order_id := body.razorpay_order_id
        razorpay_payment_id := pid2, razorpay_signature := sig2 }
      { d with status := .failed } h1 hp2 hs2 hfind2 rfl

/-- C6 witness: a tampered signature on pending donation "ord1" marks it
failed and a retry reports "Payment failed. Please try again.". -/
theorem C6_tampered_signature_witness :
    verifyDonation hmacId (some "sec") fetchNone exWorldPending 10
        { razorpay_order_id := "ord1", razorpay_payment_id := "pay1"
          razorpay_signature := "tampered" }
      = (.err 400 "Payment verification failed. Invalid signature.",
         updateDonationRow exWorldPending exDonPending.id
           { exDonPending with status := .failed })
    ∧ verifyDonation hmacId (some "sec") fetchNone
        (updateDonationRow exWorldPending exDonPending.id
          { exDonPending with status := .failed }) 10
        { razorpay_order_id := "ord1", razorpay_payment_id := "pay1"
          razorpay_signature := "ord1|pay1" }
      = (.err 400 "Payment failed. Please try again.",
         updateDonationRow exWorldPending exDonPending.id
           { exDonPending with status := .failed }) := by
  have h := C6_tampered_signature hmacId "sec" fetchNone exWorldPending 10
    { razorpay_order_id := "ord1", razorpay_payment_id := "pay1"
      razorpay_signature := "tampered" }
    exDonPending (by decide) (by unfold donationIdsNodup; decide)
    (by decide) (by decide) (by decide) rfl rfl (by decide)
  exact ⟨h.1, h.2.2.2 "pay1" "ord1|pay1" (by decide) (by decide)⟩

/-- C3: signature-verification contract — with the secret configured,
verifyPaymentSignature is a pure function returning Except.ok of exactly
the test "signature = hex HMAC of orderId|paymentId under the secret"; the
correct signature yields true; mutating the signature alone, or (given a
collision-free digest) the orderId alone or the paymentId alone, flips the
result to false; no input makes it throw while the secret is set; and it
throws the configuration error exactly when the secret is unset (absent or
empty, both falsy in the source). -/
theorem C3_signature_contract (hmacHex : String → String → String)
    (secret : String) (hsk : secret ≠ "")
    (hinj : Function.Injective (hmacHex secret)) :
    (∀ oid pid sig, verifyPaymentSignature hmacHex (some secret) oid pid sig
        = .ok (hmacHex secret (oid ++ "|" ++ pid) == sig))
    ∧ (∀ oid pid, verifyPaymentSignature hmacHex (some secret) oid pid
        (hmacHex secret (oid ++ "|" ++ pid)) = .ok true)
    ∧ (∀ oid pid sig, sig ≠ hmacHex secret (oid ++ "|" ++ pid) →
        verifyPaymentSignature hmacHex (some secret) oid pid sig = .ok false)
    ∧ (∀ oid oid2 pid, oid2 ≠ oid →
        verifyPaymentSignature hmacHex (some secret) oid2 pid
          (hmacHex secret (oid ++ "|" ++ pid)) = .ok false)
    ∧ (∀ oid pid pid2, pid2 ≠ pid →
        verifyPaymentSignature hmacHex (some secret) oid pid2
          (hmacHex secret (oid ++ "|" ++ pid)) = .ok false)
    ∧ (∀ oid pid sig, ∃ b : Bool,
        verifyPaymentSignature hmacHex (some secret) oid pid sig = .ok b)
    ∧ (∀ (s : Option String) (oid pid sig : String),
        secretConfigured s = false ↔
          verifyPaymentSignature hmacHex s oid pid sig
            = .error "RAZORPAY_KEY_SECRET must be set to verify payments.") := by
  have hskb : (secret == "") = false := beq_eq_false_iff_ne.mpr hsk
  have hbase : ∀ oid pid sig,
      verifyPaymentSignature hmacHex (some secret) oid pid sig
        = .ok (hmacHex secret (oid ++ "|" ++ pid) == sig) := by
    intro oid pid sig
    simp [verifyPaymentSignature, hskb]
  refine ⟨hbase, ?_, ?_, ?_, ?_, ?_, ?_⟩
  · intro oid pid
    rw [hbase]
    simp
  · intro oid pid sig hne
    rw [hbase]
    have : (hmacHex secret (oid ++ "|" ++ pid) == sig) = false :=
      beq_eq_false_iff_ne.mpr (fun he => hne he.symm)
    rw [this]
  · intro oid oid2 pid hne
    rw [hbase]
    have hbody : hmacHex secret (oid2 ++ "|" ++ pid)
        ≠ hmacHex secret (oid ++ "|" ++ pid) := by
      intro he
      exact hne (pipe_body_inj_left oid oid2 pid (hinj he))
    rw [beq_eq_false_iff_ne.mpr hbody]
  · intro oid pid pid2 hne
    rw [hbase]
    have hbody : hmacHex secret (oid ++ "|" ++ pid2)
        ≠ hmacHex secret (oid ++ "|" ++ pid) := by
      intro he
      exact hne (pipe_body_inj_right oid pid pid2 (hinj he))
    rw [beq_eq_false_iff_ne.mpr hbody]
  · intro oid pid sig
    exact ⟨_, hbase oid pid sig⟩
  · intro s oid pid sig
    cases s with
    | none => simp [secretConfigured, verifyPaymentSignature]
    | some t =>
      by_cases ht : t = ""
      · subst ht
        simp [secretConfigured, verifyPaymentSignature]
      · have htb : (t == "") = false := beq_eq_false_iff_ne.mpr ht
        simp [secretConfigured, verifyPaymentSignature, htb]

/-- C3 witness: with secret "sec" and the (injective) instantiation of the
digest, the correct signature for ("o1","p1") verifies and a mutated
signature fails. -/
theorem C3_signature_contract_witness :
    verifyPaymentSignature hmacId (some "sec") "o1" "p1"
        (hmacId "sec" ("o1" ++ "|" ++ "p1")) = .ok true
    ∧ verifyPaymentSignature hmacId (some "sec") "o1" "p1" "wrong" = .ok false := by
  have h := C3_signature_contract hmacId "sec" (by decide) (fun a b hab => hab)
  exact ⟨h.2.1 "o1" "p1", h.2.2.1 "o1" "p1" "wrong" (by decide)⟩

/-- Computation lemma: round(5·100) paise for the ₹5 example donation. -/
theorem jsRound_five_hundred : jsRound ((5 : ℚ) * 100) = 500 := by
  norm_num [jsRound]

/-- C8 counterexample: on a pending donation whose target event EXISTS but
is INACTIVE (isActive = false), a valid-signature verify credits the
event's raisedAmountPaise (0 → 500) — contradicting the claim that no
raisedAmount of any event changes when the event is inactive. -/
theorem C8_inactive_event_credited_counterexample :
    eventRaised (verifyDonation hmacId (some "sec") fetchNone exWorldInactive 10
        { razorpay_order_id := "ord1", razorpay_payment_id := "pay1"
          razorpay_signature := "ord1|pay1" }).2 3 = some 500
    ∧ exWorldInactive.events.map (fun e => e.isActive) = [false]
    ∧ some (500 : Int) ≠ some (0 : Int) := by
  refine ⟨?_, rfl, by decide⟩
  have hbranch := verify_branch_good_signature hmacId "sec" fetchNone
    exWorldInactive 10
    { razorpay_order_id := "ord1", razorpay_payment_id := "pay1"
      razorpay_signature := "ord1|pay1" }
    exDonPending (by decide) (by decide) (by decide) (by decide) rfl rfl (by decide)
  rw [hbranch]
  have h := eventRaised_captureWorld fetchNone exWorldInactive exDonPending
    "pay1" "ord1|pay1" 3 exEventInactive rfl rfl
  rw [h]
  rw [show exDonPending.amount = (5 : ℚ) from rfl,
      show exEventInactive.raisedAmountPaise = 0 from rfl,
      jsRound_five_hundred]
  rfl

/-- C8 (amended): a valid-signature verify on a pending donation always
captures the donation and returns success; when the referenced event row
no longer exists the aggregation step is silently skipped and no event row
changes; but when the event row still exists and is merely INACTIVE, the
raisedAmountPaise is still incremented (Event.findByPk does not filter on
isActive) — the "inactive" half of the original claim does not hold. -/
theorem C8_capture_survives_missing_event (hmacHex : String → String → String)
    (secret : String) (fetch : String → Option PaymentDetails)
    (w : World) (dev : Int) (body : VerifyDonationBody) (d : DonationRow)
    (hsk : secret ≠ "")
    (h1 : body.razorpay_order_id ≠ "") (h2 : body.razorpay_payment_id ≠ "")
    (h3 : body.razorpay_signature ≠ "")
    (hfind : findDonation w body.razorpay_order_id dev = some d)
    (hpend : d.status = .pending)
    (hgood : hmacHex secret (body.razorpay_order_id ++ "|" ++ body.razorpay_payment_id)
      = body.razorpay_signature) :
    ((verifyDonation hmacHex (some secret) fetch w dev body).1
      = .ok 200 "Payment verified. Thank you for your donation!"
        (captureSuccess fetch d body.razorpay_payment_id body.razorpay_signature))
    ∧ (captureSuccess fetch d body.razorpay_payment_id body.razorpay_signature).status
      = .captured
    ∧ (∀ eid, d.eventId = some eid → findEventByPk w eid = none →
        (verifyDonation hmacHex (some secret) fetch w dev body).2.events = w.events)
    ∧ (∀ eid ev, d.eventId = some eid → findEventByPk w eid = some ev →
        ev.isActive = false →
        eventRaised (verifyDonation hmacHex (some secret) fetch w dev body).2 eid
          = some (ev.raisedAmountPaise + jsRound (d.amount * 100))) := by
  have hbranch := verify_branch_good_signature hmacHex secret fetch w dev body d
    hsk h1 h2 h3 hfind hpend hgood
  refine ⟨by rw [hbranch], rfl, ?_, ?_⟩
  · intro eid hd hmiss
    rw [hbranch]
    exact captureWorld_events_missing_event fetch w d _ _ eid hd hmiss
  · intro eid ev hd hev _
    rw [hbranch]
    exact eventRaised_captureWorld fetch w d _ _ eid ev hd hev

/-- C8 witness: a pending donation whose event row is gone still captures
successfully and leaves the (empty) events table unchanged. -/
theorem C8_capture_survives_missing_event_witness :
    ((verifyDonation hmacId (some "sec") fetchNone
        { users := [exAdmin], favorites := [exFav]
          donations := [exDonPending], events := [] } 10
        { razorpay_order_id := "ord1", razorpay_payment_id := "pay1"
          razorpay_signature := "ord1|pay1" }).1
      = .ok 200 "Payment verified. Thank you for your donation!"
        (captureSuccess fetchNone exDonPending "pay1" "ord1|pay1"))
    ∧ (verifyDonation hmacId (some "sec") fetchNone
        { users := [exAdmin], favorites := [exFav]
          donations := [exDonPending], events := [] } 10
        { razorpay_order_id := "ord1", razorpay_payment_id := "pay1"
          razorpay_signature := "ord1|pay1" }).2.events = [] := by
  have h := C8_capture_survives_missing_event hmacId "sec" fetchNone
    { users := [exAdmin], favorites := [exFav]
      donations := [exDonPending], events := [] } 10
    { razorpay_order_id := "ord1", razorpay_payment_id := "pay1"
      razorpay_signature := "ord1|pay1" }
    exDonPending (by decide) (by decide) (by decide) (by decide) rfl rfl (by decide)
  exact ⟨h.1, h.2.2.1 3 rfl rfl⟩

/-- C5 counterexample: the raised-amount update is a separate read followed
by a separate write; under the schedule in which two captures of 500 paise
both read before either writes, the event's raisedAmountPaise ends at 500,
not the 2×500 = 1000 the claim requires for concurrent captures (the
serialized schedule does reach 1000). -/
theorem C5_lost_update_counterexample :
    eventRaised (interleavedAddRaised2 exWorldPending 3 500) 3 = some 500
    ∧ eventRaised (seqAddRaised exWorldPending 3 500 2) 3 = some 1000
    ∧ some (500 : Int) ≠ some (1000 : Int) := by
  refine ⟨by decide, by decide, by decide⟩

/-- C5 (amended): each successful capture adds exactly round(amount·100)
paise to its target event, and N SERIALIZED read-modify-write updates of
amount A add exactly N×A; the atomicity part of the original claim fails —
the controller's read and write are two separate steps, and interleaving
them loses updates (see the counterexample theorem). -/
theorem C5_serialized_aggregation :
    (∀ (hmacHex : String → String → String) (secret : String)
        (fetch : String → Option PaymentDetails)
        (w : World) (dev : Int) (body : VerifyDonationBody) (d : DonationRow)
        (eid : Int) (ev : EventRow),
      secret ≠ "" →
      body.razorpay_order_id ≠ "" → body.razorpay_payment_id ≠ "" →
      body.razorpay_signature ≠ "" →
      findDonation w body.razorpay_order_id dev = some d →
      d.status = .pending →
      hmacHex secret (body.razorpay_order_id ++ "|" ++ body.razorpay_payment_id)
        = body.razorpay_signature →
      d.eventId = some eid → findEventByPk w eid = some ev →
      eventRaised (verifyDonation hmacHex (some secret) fetch w dev body).2 eid
        = some (ev.raisedAmountPaise + jsRound (d.amount * 100)))
    ∧ (∀ (w : World) (eid a r : Int) (n : Nat),
        eventRaised w eid = some r →
        eventRaised (seqAddRaised w eid a n) eid = some (r + n * a)) := by
  constructor
  · intro hmacHex secret fetch w dev body d eid ev hsk h1 h2 h3 hfind hpend hgood hd hev
    have hbranch := verify_branch_good_signature hmacHex secret fetch w dev body d
      hsk h1 h2 h3 hfind hpend hgood
    rw [hbranch]
    exact eventRaised_captureWorld fetch w d _ _ eid ev hd hev
  · intro w eid a r n hr
    exact eventRaised_seqAddRaised eid a n w r hr

/-- C5 witness: one concrete capture adds 500 paise to event 3, and three
serialized 500-paise updates add 1500. -/
theorem C5_serialized_aggregation_witness :
    eventRaised (verifyDonation hmacId (some "sec") fetchNone exWorldPending 10
        { razorpay_order_id := "ord1", razorpay_payment_id := "pay1"
          razorpay_signature := "ord1|pay1" }).2 3
      = some (exEventActive.raisedAmountPaise + jsRound (exDonPending.amount * 100))
    ∧ eventRaised (seqAddRaised exWorldPending 3 500 3) 3 = some (0 + 3 * 500) := by
  constructor
  · exact C5_serialized_aggregation.1 hmacId "sec" fetchNone exWorldPending 10
      { razorpay_order_id := "ord1", razorpay_payment_id := "pay1"
        razorpay_signature := "ord1|pay1" }
      exDonPending 3 exEventActive (by decide) (by decide) (by decide) (by decide)
      rfl rfl (by decide) rfl rfl
  · exact C5_serialized_aggregation.2 exWorldPending 3 500 0 3 rfl

/-- Floor bound used by the create flow: an accepted amount (≥ ₹1) yields
at least 100 paise, so the controller's second minimum check cannot fire. -/
theorem floor_hundred_le (a : ℚ) (h : 1 ≤ a) : (100 : Int) ≤ ⌊a * 100⌋ := by
  rw [Int.le_floor]
  push_cast
  linarith

/-- Success branch of createDonationOrder: validated amount, favorited and
active organization, gateway returns an order id — a pending donation row
storing `amountRupees` (the truncated RUPEE amount) is appended and the
payload carries `⌊amount·100⌋` paise. -/
theorem create_branch_success (oid : String) (w : World) (dev : Int)
    (body : CreateDonationBody)
    (hid : 0 < body.adminId) (hlo : 1 ≤ body.amount) (hhi : body.amount ≤ 1000000)
    (fav : FavoriteRow)
    (hfav : w.favorites.find?
      (fun f => f.devoteeId == dev && f.adminId == body.adminId) = some fav)
    (admin : UserRow)
    (hadmin : w.users.find? (fun u => u.id == body.adminId) = some admin)
    (hact : admin.isActive = true) :
    createDonationOrder (some oid) w dev body =
      (.ok 201 "Order created. Complete payment on client."
        { donationId := nextDonationId w
          razorpayOrderId := oid
          amount := ⌊body.amount * 100⌋
          amountRupees := ((⌊body.amount * 100⌋ : Int) : ℚ) / 100
          currency := "INR"
          organizationId := body.adminId
          organizationName := admin.name },
       { w with donations := w.donations ++
          [{ id := nextDonationId w
             devoteeId := dev
             adminId := body.adminId
             eventId := none
             amount := (⌊body.amount * 100⌋ : ℚ) / 100
             razorpayOrderId := oid
             razorpayPaymentId := none
             razorpaySignature := none
             utr := none
             transactionId := none
             paymentMethod := none
             status := .pending }] }) := by
  have h100 : ¬ (⌊body.amount * 100⌋ < 100) :=
    not_lt.mpr (floor_hundred_le body.amount hlo)
  unfold createDonationOrder
  rw [validateCreateDonation_ok body hid hlo hhi]
  simp only [jsRound_floor_div, hfav, hadmin, hact]
  rw [if_neg h100, if_neg (by simp)]

/-- C4 counterexample: a ₹150 create-order request persists a Donation row
whose amount is 150 — the rupee (major-unit) value — not the 15000 paise
the claim requires. -/
theorem C4_stores_rupees_counterexample :
    (createDonationOrder (some "ordY") exWorldNoDonations 10
        { adminId := 1, amount := 150 }).2.donations.map (fun d => d.amount)
      = [(150 : ℚ)]
    ∧ (150 : ℚ) ≠ (15000 : ℚ) := by
  constructor
  · rw [create_branch_success "ordY" exWorldNoDonations 10
      { adminId := 1, amount := 150 } (by decide) (by norm_num) (by norm_num)
      exFav rfl exAdmin rfl rfl]
    norm_num [exWorldNoDonations]
  · norm_num

/-- C4 (amended): the Donation row persisted by createDonationOrder stores
the amount in RUPEES (major units, the validator's amount truncated to two
decimals), matching the model's DECIMAL(10,2) 'Amount in Rupees (INR)'
column; paise (minor units) appear only derived from it — in the gateway
order/payload as ⌊amount·100⌋ and at capture time as round(storedAmount·100),
which recovers the same integer. -/
theorem C4_amount_stored_in_rupees (oid : String) (w : World) (dev : Int)
    (body : CreateDonationBody)
    (hid : 0 < body.adminId) (hlo : 1 ≤ body.amount) (hhi : body.amount ≤ 1000000)
    (fav : FavoriteRow)
    (hfav : w.favorites.find?
      (fun f => f.devoteeId == dev && f.adminId == body.adminId) = some fav)
    (admin : UserRow)
    (hadmin : w.users.find? (fun u => u.id == body.adminId) = some admin)
    (hact : admin.isActive = true) :
    (createDonationOrder (some oid) w dev body).2.donations.map (fun d => d.amount)
      = w.donations.map (fun d => d.amount) ++ [(⌊body.amount * 100⌋ : ℚ) / 100]
    ∧ (∀ p, (createDonationOrder (some oid) w dev body).1
        = .ok 201 "Order created. Complete payment on client." p →
        p.amount = ⌊body.amount * 100⌋)
    ∧ jsRound ((⌊body.amount * 100⌋ : ℚ) / 100 * 100) = ⌊body.amount * 100⌋ := by
  have h := create_branch_success oid w dev body hid hlo hhi fav hfav admin hadmin hact
  refine ⟨?_, ?_, jsRound_floor_div body.amount⟩
  · rw [h]
    simp
  · intro p hp
    rw [h] at hp
    cases hp
    rfl

/-- C4 witness: the ₹150 order appends a row storing 150 rupees while the
gateway payload carries 15000 paise. -/
theorem C4_amount_stored_in_rupees_witness :
    (createDonationOrder (some "ordY") exWorldNoDonations 10
        { adminId := 1, amount := 150 }).2.donations.map (fun d => d.amount)
      = [] ++ [(⌊(150 : ℚ) * 100⌋ : ℚ) / 100]
    ∧ jsRound ((⌊(150 : ℚ) * 100⌋ : ℚ) / 100 * 100) = ⌊(150 : ℚ) * 100⌋ := by
  have h := C4_amount_stored_in_rupees "ordY" exWorldNoDonations 10
    { adminId := 1, amount := 150 } (by decide) (by norm_num) (by norm_num)
    exFav rfl exAdmin rfl rfl
  exact ⟨h.1, h.2.2⟩

/-- C9 counterexample: the accepted amount 1.9765625 (whose paise value
197.65625 rounds to 198) is converted by TRUNCATION: the created order and
payload carry 197 paise, not the nearest integer 198. -/
theorem C9_truncates_not_rounds_counterexample :
    (createDonationOrder (some "ordX") exWorldNoDonations 10
        { adminId := 1, amount := 1.9765625 }).1
      = .ok 201 "Order created. Complete payment on client."
        { donationId := 1
          razorpayOrderId := "ordX"
          amount := 197
          amountRupees := ((197 : Int) : ℚ) / 100
          currency := "INR"
          organizationId := 1
          organizationName := "Temple" }
    ∧ jsRound ((1.9765625 : ℚ) * 100) = 198
    ∧ (197 : Int) ≠ 198 := by
  refine ⟨?_, by norm_num [jsRound], by decide⟩
  rw [create_branch_success "ordX" exWorldNoDonations 10
    { adminId := 1, amount := 1.9765625 } (by decide) (by norm_num) (by norm_num)
    exFav rfl exAdmin rfl rfl]
  norm_num
  exact ⟨by decide, rfl⟩

/-- C9 (amended): create-order accepts an amount exactly when it lies in
[1, 1000000] rupees — out-of-range requests fail validation with HTTP 422
and create no state — and an accepted amount is converted to minor units
by TRUNCATION to whole paise (⌊amount·100⌋, via Math.floor(amount*100)/100
in the validator), not by rounding to the nearest paise. -/
theorem C9_amount_validation_and_truncation :
    (∀ (gw : Option String) (w : World) (dev : Int) (body : CreateDonationBody),
        body.amount < 1 ∨ body.amount > 1000000 →
        createDonationOrder gw w dev body = (.err 422 "Validation failed", w))
    ∧ (∀ (oid : String) (w : World) (dev : Int) (body : CreateDonationBody)
        (fav : FavoriteRow) (admin : UserRow),
        0 < body.adminId → 1 ≤ body.amount → body.amount ≤ 1000000 →
        w.favorites.find?
          (fun f => f.devoteeId == dev && f.adminId == body.adminId) = some fav →
        w.users.find? (fun u => u.id == body.adminId) = some admin →
        admin.isActive = true →
        ∀ p, (createDonationOrder (some oid) w dev body).1
          = .ok 201 "Order created. Complete payment on client." p →
          p.amount = ⌊body.amount * 100⌋) := by
  constructor
  · intro gw w dev body hrange
    unfold createDonationOrder validateCreateDonation
    rcases hrange with hlt | hgt
    · by_cases hA : body.adminId ≤ 0 <;> simp [hA, hlt]
    · have hnlt : ¬ body.amount < 1 := by linarith
      by_cases hA : body.adminId ≤ 0 <;> simp [hA, hnlt, hgt]
  · intro oid w dev body fav admin hid hlo hhi hfav hadmin hact p hp
    rw [create_branch_success oid w dev body hid hlo hhi fav hfav
      admin hadmin hact] at hp
    cases hp
    rfl

/-- C9 witness: a ₹0.50 request fails validation with HTTP 422 and creates
no state. -/
theorem C9_amount_validation_and_truncation_witness :
    createDonationOrder (some "ordZ") exWorldNoDonations 10
        { adminId := 1, amount := 1/2 }
      = (.err 422 "Validation failed", exWorldNoDonations) :=
  C9_amount_validation_and_truncation.1 (some "ordZ") exWorldNoDonations 10
    { adminId := 1, amount := 1/2 } (Or.inl (by norm_num))

/-!  ## State-machine analysis for sequences of operations (C2)  -/

theorem create_world_donations (gw : Option String) (w : World) (dev : Int)
    (body : CreateDonationBody) :
    (createDonationOrder gw w dev body).2 = w ∨
    ∃ d : DonationRow, d.id = nextDonationId w ∧ d.status = .pending ∧
      (createDonationOrder gw w dev body).2
        = { w with donations := w.donations ++ [d] } := by
  unfold createDonationOrder
  cases hv : validateCreateDonation body with
  | error e => exact Or.inl rfl
  | ok data =>
    simp only []
    by_cases h100 : jsRound (data.amountRupees * 100) < 100
    · rw [if_pos h100]
      exact Or.inl rfl
    · rw [if_neg h100]
      cases hf : w.favorites.find?
          (fun f => f.devoteeId == dev && f.adminId == data.adminId) with
      | none => exact Or.inl rfl
      | some fav =>
        cases hu : w.users.find? (fun u => u.id == data.adminId) with
        | none => exact Or.inl rfl
        | some admin =>
          by_cases hact : admin.isActive
          · simp only [hact, Bool.not_true]
            rw [if_neg (by simp : ¬ ((false : Bool) = true))]
            cases gw with
            | none => exact Or.inl rfl
            | some oid =>
              exact Or.inr ⟨_, rfl, rfl, rfl⟩
          · have hact2 : admin.isActive = false := by
              cases hh : admin.isActive
              · rfl
              · exact absurd hh hact
            simp only [hact2, Bool.not_false]
            simp only [if_true]
            exact Or.inl trivial

theorem verify_world_donations (hmacHex : String → String → String)
    (secret : Option String) (fetch : String → Option PaymentDetails)
    (w : World) (dev : Int) (body : VerifyDonationBody) :
    (verifyDonation hmacHex secret fetch w dev body).2.donations = w.donations ∨
    ∃ d dnew : DonationRow, d ∈ w.donations ∧ d.status = .pending ∧
      dnew.id = d.id ∧ (dnew.status = .captured ∨ dnew.status = .failed) ∧
      (verifyDonation hmacHex secret fetch w dev body).2.donations
        = w.donations.map (fun x => if x.id == d.id then dnew else x) := by
  unfold verifyDonation
  cases hv : validateVerifyDonation body with
  | error e => exact Or.inl rfl
  | ok data =>
    simp only []
    cases hfind : findDonation w data.razorpayOrderId dev with
    | none => exact Or.inl rfl
    | some d =>
      simp only []
      by_cases hcap : d.status = .captured
      · rw [if_pos hcap]
        exact Or.inl rfl
      · rw [if_neg hcap]
        by_cases hfail : d.status = .failed
        · rw [if_pos hfail]
          exact Or.inl rfl
        · rw [if_neg hfail]
          have hpend : d.status = .pending := by
            cases hs : d.status
            · rfl
            · exact absurd hs hcap
            · exact absurd hs hfail
          cases hsig : verifyPaymentSignature hmacHex secret data.razorpayOrderId
              data.razorpayPaymentId data.razorpaySignature with
          | error e => exact Or.inl rfl
          | ok b =>
            cases b with
            | false =>
              exact Or.inr ⟨d, { d with status := .failed },
                List.mem_of_find?_eq_some hfind, hpend, rfl, Or.inr rfl, rfl⟩
            | true =>
              refine Or.inr ⟨d,
                captureSuccess fetch d data.razorpayPaymentId data.razorpaySignature,
                List.mem_of_find?_eq_some hfind, hpend, rfl, Or.inl rfl, ?_⟩
              exact captureWorld_donations fetch w d
                data.razorpayPaymentId data.razorpaySignature

theorem nextDonationId_not_mem (w : World) :
    nextDonationId w ∉ w.donations.map (fun d => d.id) := by
  intro hmem
  have hle := le_foldr_max (w.donations.map (fun d => d.id)) (nextDonationId w) hmem
  unfold nextDonationId at hle
  linarith

theorem wf_applyOp (w : World) (op : Op) (hnd : donationIdsNodup w) :
    donationIdsNodup (applyOp w op) := by
  cases op with
  | createOrder gw dev body =>
    rcases create_world_donations gw w dev body with hsame | ⟨d, hid, _, heq⟩
    · show ((createDonationOrder gw w dev body).2.donations.map (fun d => d.id)).Nodup
      rw [hsame]
      exact hnd
    · show ((createDonationOrder gw w dev body).2.donations.map (fun d => d.id)).Nodup
      rw [heq]
      simp only [List.map_append, List.map_cons, List.map_nil]
      refine List.Nodup.append hnd (List.nodup_singleton _) ?_
      intro a ha hb
      have : a = d.id := by simpa using hb
      rw [this, hid] at ha
      exact nextDonationId_not_mem w ha
  | verify hm sec fet dev body =>
    rcases verify_world_donations hm sec fet w dev body with hsame | ⟨d, dnew, _, _, hid, _, heq⟩
    · show ((verifyDonation hm sec fet w dev body).2.donations.map (fun d => d.id)).Nodup
      rw [hsame]
      exact hnd
    · show ((verifyDonation hm sec fet w dev body).2.donations.map (fun d => d.id)).Nodup
      rw [heq, List.map_map]
      have hcomp : ((fun x => x.id) ∘ (fun x => if x.id == d.id then dnew else x))
          = fun x : DonationRow => x.id := by
        funext x
        by_cases hx : (x.id == d.id) = true
        · simp only [Function.comp, hx, if_true]
          rw [hid, beq_iff_eq.mp hx]
        · simp only [Bool.not_eq_true] at hx
          simp [Function.comp, hx]
      rw [hcomp]
      exact hnd

theorem donationStatusById_congr (w1 w2 : World)
    (h : w1.donations = w2.donations) (i : Int) :
    donationStatusById w1 i = donationStatusById w2 i := by
  unfold donationStatusById
  rw [h]

theorem donationStatusById_append_of_some (w : World) (d : DonationRow)
    (i : Int) (s : DonationStatus) (h : donationStatusById w i = some s) :
    donationStatusById { w with donations := w.donations ++ [d] } i = some s := by
  unfold donationStatusById at *
  cases hfx : w.donations.find? (fun x => x.id == i) with
  | none => rw [hfx] at h; cases h
  | some x0 =>
    rw [hfx] at h
    show ((w.donations ++ [d]).find? (fun x => x.id == i)).map (fun x => x.status)
      = some s
    rw [List.find?_append, hfx]
    exact h

theorem applyOp_status_step (w : World) (op : Op) (i : Int)
    (s1 s2 : DonationStatus) (hnd : donationIdsNodup w)
    (hb : donationStatusById w i = some s1)
    (ha : donationStatusById (applyOp w op) i = some s2) :
    s2 = s1 ∨ (s1 = .pending ∧ (s2 = .captured ∨ s2 = .failed)) := by
  cases op with
  | createOrder gw dev body =>
    left
    rcases create_world_donations gw w dev body with hsame | ⟨d, _, _, heq⟩
    · have hw : applyOp w (Op.createOrder gw dev body) = w := hsame
      rw [hw, hb] at ha
      exact (Option.some_injective _ ha).symm
    · have hw : applyOp w (Op.createOrder gw dev body)
          = { w with donations := w.donations ++ [d] } := heq
      rw [hw, donationStatusById_append_of_some w d i s1 hb] at ha
      exact (Option.some_injective _ ha).symm
  | verify hm sec fet dev body =>
    rcases verify_world_donations hm sec fet w dev body with hsame
      | ⟨d, dnew, hmem, hpend, hid, hst, heq⟩
    · left
      have ha2 : donationStatusById (verifyDonation hm sec fet w dev body).2 i
          = some s2 := ha
      rw [donationStatusById_congr _ w hsame i, hb] at ha2
      exact (Option.some_injective _ ha2).symm
    · have hnd2 : (w.donations.map (fun d => d.id)).Nodup := hnd
      have ha2 : donationStatusById (verifyDonation hm sec fet w dev body).2 i
          = some s2 := ha
      have hdon : (verifyDonation hm sec fet w dev body).2.donations
          = (updateDonationRow w d.id dnew).donations := heq
      rw [donationStatusById_congr _ _ hdon i] at ha2
      by_cases hi : i = d.id
      · subst hi
        have hfd : w.donations.find? (fun x => x.id == d.id) = some d :=
          find?_key_first (fun x => x.id) w.donations hnd2 d hmem
        have hs1 : s1 = d.status := by
          unfold donationStatusById at hb
          rw [hfd] at hb
          exact (Option.some_injective _ hb).symm
        have hup := donationStatusById_update_self w d hmem dnew hid
        rw [hup] at ha2
        have hs2 : s2 = dnew.status := (Option.some_injective _ ha2).symm
        right
        exact ⟨hs1.trans hpend, by rw [hs2]; exact hst⟩
      · rw [donationStatusById_update_other w d dnew hid i hi, hb] at ha2
        exact Or.inl (Option.some_injective _ ha2).symm

theorem applyOp_terminal_step (w : World) (op : Op) (i : Int)
    (st : DonationStatus) (hnd : donationIdsNodup w)
    (hterm : st = .captured ∨ st = .failed)
    (hb : donationStatusById w i = some st) :
    donationStatusById (applyOp w op) i = some st := by
  cases op with
  | createOrder gw dev body =>
    rcases create_world_donations gw w dev body with hsame | ⟨d, _, _, heq⟩
    · have hw : applyOp w (Op.createOrder gw dev body) = w := hsame
      rw [hw]
      exact hb
    · have hw : applyOp w (Op.createOrder gw dev body)
          = { w with donations := w.donations ++ [d] } := heq
      rw [hw]
      exact donationStatusById_append_of_some w d i st hb
  | verify hm sec fet dev body =>
    rcases verify_world_donations hm sec fet w dev body with hsame
      | ⟨d, dnew, hmem, hpend, hid, hst, heq⟩
    · show donationStatusById (verifyDonation hm sec fet w dev body).2 i = some st
      rw [donationStatusById_congr _ w hsame i]
      exact hb
    · have hnd2 : (w.donations.map (fun d => d.id)).Nodup := hnd
      show donationStatusById (verifyDonation hm sec fet w dev body).2 i = some st
      have hdon : (verifyDonation hm sec fet w dev body).2.donations
          = (updateDonationRow w d.id dnew).donations := heq
      rw [donationStatusById_congr _ _ hdon i]
      by_cases hi : i = d.id
      · subst hi
        have hfd : w.donations.find? (fun x => x.id == d.id) = some d :=
          find?_key_first (fun x => x.id) w.donations hnd2 d hmem
        have hs1 : st = d.status := by
          unfold donationStatusById at hb
          rw [hfd] at hb
          exact (Option.some_injective _ hb).symm
        rw [hpend] at hs1
        rcases hterm with h | h <;> rw [h] at hs1 <;> cases hs1
      · rw [donationStatusById_update_other w d dnew hid i hi]
        exact hb

theorem runOps_terminal (ops : List Op) :
    ∀ (w : World) (i : Int) (st : DonationStatus),
      donationIdsNodup w → (st = .captured ∨ st = .failed) →
      donationStatusById w i = some st →
      donationStatusById (runOps w ops) i = some st := by
  induction ops with
  | nil =>
    intro w i st _ _ hb
    exact hb
  | cons op t ih =>
    intro w i st hnd hterm hb
    exact ih (applyOp w op) i st (wf_applyOp w op hnd) hterm
      (applyOp_terminal_step w op i st hnd hterm hb)

/-- C2: donation state-machine invariant — across any single
createDonationOrder / verifyDonation operation a donation's status either
stays put or moves pending→captured / pending→failed, and across EVERY
sequence of such operations a donation that is `captured` or `failed`
keeps that status forever (no resurrection, no re-capture), given the
database's primary-key uniqueness of donation ids. -/
theorem C2_status_state_machine :
    (∀ (w : World) (op : Op) (i : Int) (s1 s2 : DonationStatus),
        donationIdsNodup w →
        donationStatusById w i = some s1 →
        donationStatusById (applyOp w op) i = some s2 →
        s2 = s1 ∨ (s1 = .pending ∧ (s2 = .captured ∨ s2 = .failed)))
    ∧ (∀ (w : World) (ops : List Op) (i : Int) (st : DonationStatus),
        donationIdsNodup w → (st = .captured ∨ st = .failed) →
        donationStatusById w i = some st →
        donationStatusById (runOps w ops) i = some st) :=
  ⟨applyOp_status_step, fun w ops i st hnd hterm hb =>
    runOps_terminal ops w i st hnd hterm hb⟩

/-- C2 witness: donation 101 is captured; after a replayed verify and a
fresh create-order it is still captured. -/
theorem C2_status_state_machine_witness :
    donationStatusById (runOps exWorldCaptured
      [Op.verify hmacId (some "sec") fetchNone 10
        { razorpay_order_id := "ord2", razorpay_payment_id := "p"
          razorpay_signature := "s" },
       Op.createOrder (some "ordN") 10 { adminId := 1, amount := 25 }]) 101
      = some .captured :=
  C2_status_state_machine.2 exWorldCaptured
    [Op.verify hmacId (some "sec") fetchNone 10
      { razorpay_order_id := "ord2", razorpay_payment_id := "p"
        razorpay_signature := "s" },
     Op.createOrder (some "ordN") 10 { adminId := 1, amount := 25 }] 101
    .captured (by unfold donationIdsNodup; decide) (Or.inl rfl) rfl

end Fivopay
